import Mathlib

/-!
Shallow embedding of the course-generation pipeline of the `ai_tutor`
repository (`course_generator.py`, with its consumers in `app.py`).
Python dictionaries are modelled as Lean structures; a dictionary key that a
code path may leave absent is modelled as an `Option` field (`none` = key
absent).  Python string helpers (`strip`, `lstrip`, `startswith`, `split`,
`lower`, substring tests, the two regular expressions used by the parsers)
are modelled character-list-wise below.  The generative backend is modelled
as an arbitrary total function `String → String`: the helper functions that
call it (`generate_section_content`, `generate_session_assessment`) catch
every exception internally and return a string or an empty record, so from
the point of view of the pipeline the backend boundary is total.
-/

/-- Python `str.isspace` members that `str.strip()` removes (ASCII range). -/
def isPySpace (c : Char) : Bool :=
  c == ' ' || c == '\t' || c == '\n' || c == '\r' || c == '\x0b' || c == '\x0c'

/-- Python `s.strip()` (whitespace on both ends). -/
def pyTrim (s : String) : String :=
  String.mk (((s.data.dropWhile isPySpace).reverse.dropWhile isPySpace).reverse)

/-- Python `s.strip(cs)` for an explicit character set. -/
def pyStripChars (s : String) (cs : List Char) : String :=
  String.mk (((s.data.dropWhile (cs.contains ·)).reverse.dropWhile (cs.contains ·)).reverse)

/-- Python `s.lstrip(cs)` for an explicit character set. -/
def pyLStripChars (s : String) (cs : List Char) : String :=
  String.mk (s.data.dropWhile (cs.contains ·))

/-- Python `s.startswith(p)`. -/
def pyStartsWith (s p : String) : Bool :=
  p.data.isPrefixOf s.data

/-- Containment of `pat` in `s` (character lists). -/
def listContains (pat : List Char) : List Char → Bool
  | [] => pat.isPrefixOf []
  | c :: t => pat.isPrefixOf (c :: t) || listContains pat t

/-- Python `p in s` (substring containment). -/
def pyContains (s p : String) : Bool :=
  listContains p.data s.data

/-- Everything after the first occurrence of `pat` (character lists). -/
def afterFirstAux (pat : List Char) : List Char → List Char
  | [] => []
  | c :: t => if pat.isPrefixOf (c :: t) then (c :: t).drop pat.length else afterFirstAux pat t

/-- Python `s.split(sep, 1)[1]`: everything after the first occurrence of
`sep` (callers below only use it when `sep` occurs in `s`). -/
def pyAfterFirst (s sep : String) : String :=
  String.mk (afterFirstAux sep.data s.data)

/-- Python `s.split(sep)` for a one-character separator (character lists);
the result list is never empty. -/
def splitChar (sep : Char) (cs : List Char) : List (List Char) :=
  cs.foldr (fun c acc => if c == sep then [] :: acc else (c :: acc.headD []) :: acc.tail) [[]]

/-- Python `s.split('\n')`. -/
def pyLines (s : String) : List String :=
  (splitChar '\n' s.data).map String.mk

/-- Python `sep.join(parts)`. -/
def joinWith (sep : String) : List String → String
  | [] => ""
  | [x] => x
  | x :: xs => x ++ sep ++ joinWith sep xs

/-- Python `s.lower()` (ASCII, which is all the callers compare). -/
def pyToLower (s : String) : String :=
  String.mk (s.data.map Char.toLower)

/-- Python `"\n".join(lines)`. -/
def joinLines : List String → String
  | [] => ""
  | [l] => l
  | l :: ls => l ++ "\n" ++ joinLines ls

/-! ## Assessment parser (`parse_assessment_content`, course_generator.py 1106-1143)

The function splits the (stripped) reply into lines; a line matching
`^\d+\.` opens a new question (flushing the previous one together with the
answer seen so far, possibly `None`); a line whose lowercase form starts
with `answer:` or `correct answer:` records the text after the first colon
as the pending answer.  At the end the pending question is kept only when a
(truthy, i.e. non-empty) answer is pending as well. -/

/-- Python `re.match(r'^\d+\.', line)`: one or more leading digits followed
by a dot. -/
def isQuestionStart (l : String) : Bool :=
  let ds := l.data.takeWhile Char.isDigit
  match ds, l.data.drop ds.length with
  | [], _ => false
  | _ :: _, c :: _ => c == '.'
  | _ :: _, [] => false

/-- Result of `parse_assessment_content`: the dictionary
`{"questions": [...], "answers": [...]}`.  An answer slot is `none` when the
question was flushed while `current_answer` was still `None`. -/
structure AssessResult where
  questions : List String
  answers : List (Option String)
deriving DecidableEq, Repr

/-- Loop state of `parse_assessment_content`. -/
structure APState where
  questions : List String
  answers : List (Option String)
  curQ : Option String
  curA : Option String
deriving DecidableEq, Repr

/-- One iteration of the line loop of `parse_assessment_content`. -/
def apStep (st : APState) (raw : String) : APState :=
  let line := pyTrim raw
  if line = "" then st
  else if isQuestionStart line then
    let st1 :=
      match st.curQ with
      | some q => { st with questions := st.questions ++ [q], answers := st.answers ++ [st.curA] }
      | none => st
    { st1 with curQ := some line, curA := none }
  else if pyStartsWith (pyToLower line) "answer:" || pyStartsWith (pyToLower line) "correct answer:" then
    { st with curA := some (pyTrim (pyAfterFirst line ":")) }
  else st

/-- `parse_assessment_content` (course_generator.py 1106-1143).  The final
`if current_question and current_answer:` keeps the pending pair only when
both are truthy, i.e. the pending answer is present and non-empty (a
pending question string always starts with a digit, hence is non-empty). -/
def parse_assessment_content (content : String) : AssessResult :=
  let st := (pyLines (pyTrim content)).foldl apStep ⟨[], [], none, none⟩
  match st.curQ, st.curA with
  | some q, some a =>
    if a = "" then ⟨st.questions, st.answers⟩
    else ⟨st.questions ++ [q], st.answers ++ [some a]⟩
  | _, _ => ⟨st.questions, st.answers⟩

/-! ## Section-content parser (`parse_section_content`, course_generator.py 543-593)

Line loop over the reply: blank (stripped) lines are skipped; a line
starting with `#` flushes the current section (content = accumulated lines
joined with newlines, even when no lines accumulated) and opens a new one;
the `elif line.startswith('##')` subsection branch of the source is kept
verbatim below although it is unreachable (a line starting with `##` also
starts with `#`); any other line is appended to the pending-line buffer.
At the end the pending section is appended only when the buffer is
non-empty. -/

/-- A subsection record as built by the (unreachable) `##` branch. -/
structure SubsectionR where
  title : String
  content : String
deriving DecidableEq, Repr

/-- A section record of `parse_section_content`. -/
structure SectionR where
  title : String
  content : String
  subsections : List SubsectionR
deriving DecidableEq, Repr

/-- Loop state of `parse_section_content`: emitted sections, the current
section (if any) and the pending-line buffer `current_list`. -/
structure SCState where
  sections : List SectionR
  cur : Option SectionR
  buf : List String
deriving DecidableEq, Repr

/-- Python `line.lstrip('#').strip()` used for section titles. -/
def stripHashes (l : String) : String :=
  pyTrim (String.mk (l.data.dropWhile (· == '#')))

/-- One iteration of the line loop of `parse_section_content`. -/
def scStep (st : SCState) (raw : String) : SCState :=
  let line := pyTrim raw
  if line = "" then st
  else if pyStartsWith line "#" then
    match st.cur with
    | some sec =>
      { sections := st.sections ++ [{ sec with content := joinLines st.buf }],
        cur := some { title := stripHashes line, content := "", subsections := [] },
        buf := [] }
    | none =>
      { st with cur := some { title := stripHashes line, content := "", subsections := [] } }
  else if pyStartsWith line "##" then
    if st.buf = [] then st
    else
      match st.cur with
      | some sec =>
        { st with
          cur := some { sec with subsections := sec.subsections ++ [{ title := stripHashes line, content := joinLines st.buf }] },
          buf := [] }
      | none => { st with buf := [] }
  else { st with buf := st.buf ++ [line] }

/-- `parse_section_content` (course_generator.py 543-593).  The trailing
`if current_section and current_list:` appends the pending section only
when the buffer is non-empty. -/
def parse_section_content (content : String) : List SectionR :=
  let st := (pyLines content).foldl scStep ⟨[], none, []⟩
  match st.cur with
  | some sec => if st.buf = [] then st.sections else st.sections ++ [{ sec with content := joinLines st.buf }]
  | none => st.sections

/-- Heading lines of an input as seen by `parse_section_content`: non-blank
stripped lines starting with `#`. -/
def headingLineCount (content : String) : Nat :=
  ((pyLines content).countP (fun raw => decide (pyTrim raw ≠ "") && pyStartsWith (pyTrim raw) "#"))

/-- Number of sections of a parse result whose content body is empty. -/
def emptyContentCount (secs : List SectionR) : Nat :=
  secs.countP (fun s => s.content == "")

/-! ## Module-outline parser (`parse_module_outline`, course_generator.py 194-260) -/

/-- The field of the module record that subsequent content lines feed. -/
inductive MSecTag
  | mtitle
  | mdescription
  | mobjectives
  | mexercises
deriving DecidableEq, Repr

/-- A module record of `parse_module_outline`. -/
structure ModuleStub where
  number : String
  title : String
  description : String
  objectives : List String
  exercises : List String
deriving DecidableEq, Repr

/-- Loop state of `parse_module_outline`. -/
structure MOState where
  modules : List ModuleStub
  curM : Option ModuleStub
  curTag : Option MSecTag
deriving DecidableEq, Repr

/-- Python `re.match(r'^#{1,3}\s*Module\s+(\d+)[:\.]\s*(.+)$', line)`:
returns the digit group and the (non-empty) title group.  Adjacent
character classes of the pattern are disjoint, so the greedy left-to-right
scan below is exactly the regex match. -/
def moduleHeaderMatch (line : String) : Option (String × String) :=
  let cs := line.data
  let hs := cs.takeWhile (· == '#')
  if hs.length < 1 || hs.length > 3 then none
  else
    let r1 := (cs.drop hs.length).dropWhile isPySpace
    if !(("Module".data).isPrefixOf r1) then none
    else
      let r2 := r1.drop 6
      let sp := r2.takeWhile isPySpace
      if sp = [] then none
      else
        let r3 := r2.drop sp.length
        let ds := r3.takeWhile Char.isDigit
        if ds = [] then none
        else
          match r3.drop ds.length with
          | c :: r4 =>
            if c == ':' || c == '.' then
              let r5 := r4.dropWhile isPySpace
              if r5 = [] then none else some (String.mk ds, String.mk r5)
            else none
          | [] => none

/-- Replace the current module record (only used when one is present). -/
def updateCurM (st : MOState) (f : ModuleStub → ModuleStub) : MOState :=
  match st.curM with
  | some m => { st with curM := some (f m) }
  | none => st

/-- One iteration of the line loop of `parse_module_outline`. -/
def moStep (st : MOState) (raw : String) : MOState :=
  let line := pyTrim raw
  if line = "" || pyStartsWith line "**" || pyStartsWith line "---" then st
  else
    match moduleHeaderMatch line with
    | some (num, titl) =>
      let st1 :=
        match st.curM with
        | some m => { st with modules := st.modules ++ [m] }
        | none => st
      { st1 with curM := some ⟨num, pyTrim titl, "", [], []⟩, curTag := none }
    | none =>
      if pyStartsWith line "####" then
        let name := pyToLower (pyTrim (String.mk (line.data.filter (· ≠ '#'))))
        let tag :=
          if pyContains name "title:" then some MSecTag.mtitle
          else if pyContains name "description" then some MSecTag.mdescription
          else if pyContains name "learning objectives" || pyContains name "objectives" then some MSecTag.mobjectives
          else if pyContains name "hands-on exercise" || pyContains name "exercise" then some MSecTag.mexercises
          else st.curTag
        { st with curTag := tag }
      else
        match st.curM, st.curTag with
        | some _, some tag =>
          let content := pyLStripChars line ['*', '+', '-', '•', ' ', '\t']
          if content = "" then st
          else
            match tag with
            | MSecTag.mdescription =>
              updateCurM st (fun m =>
                { m with description := if m.description = "" then content else m.description ++ " " ++ content })
            | MSecTag.mobjectives =>
              if pyStartsWith content "Learning Objectives:" then st
              else updateCurM st (fun m => { m with objectives := m.objectives ++ [content] })
            | MSecTag.mexercises =>
              updateCurM st (fun m => { m with exercises := m.exercises ++ [content] })
            | MSecTag.mtitle => st
        | _, _ => st

/-- `parse_module_outline` (course_generator.py 194-260). -/
def parse_module_outline (outline : String) : List ModuleStub :=
  let st := (pyLines outline).foldl moStep ⟨[], none, none⟩
  match st.curM with
  | some m => st.modules ++ [m]
  | none => st.modules

/-! ## Session-outline parser (`parse_session_outline`, course_generator.py 595-677)

A line starting with `**Session` first appends the current session (when it
has a truthy title) to the output list, then tries to open a new one by
splitting on the first colon and searching a session number; when either
step fails the *old* session dictionary stays current, so the object just
appended and the current object are one and the same and later sub-field
lines mutate the appended list entry as well (and the final flush appends
it once more).  That reference aliasing of the Python dictionaries is
modelled by `aliasCount`: the number of trailing entries of `sessions` that
are the current dictionary; every in-place update rewrites those entries
too. -/

/-- The sub-field selected by a `* ` line. -/
inductive SessTag
  | sdescription
  | skey_concepts
  | svisual_elements
  | sresources
deriving DecidableEq, Repr

/-- A session record of `parse_session_outline`. -/
structure SessionStub where
  session_number : String
  title : String
  description : String
  key_concepts : List String
  visual_elements : List String
  resources : List String
deriving DecidableEq, Repr

/-- Loop state of `parse_session_outline`. -/
structure SOState where
  sessions : List SessionStub
  curS : Option SessionStub
  curTag : Option SessTag
  aliasCount : Nat
deriving DecidableEq, Repr

/-- Python `re.search(r'\d+(\.\d+)?', s)`: the first maximal digit run,
extended by a dot and a further digit run when present. -/
def numberSearch (s : String) : Option String :=
  match s.data.dropWhile (fun c => !c.isDigit) with
  | [] => none
  | cs =>
    let ds := cs.takeWhile Char.isDigit
    match cs.drop ds.length with
    | '.' :: r =>
      let ds2 := r.takeWhile Char.isDigit
      if ds2 = [] then some (String.mk ds) else some (String.mk (ds ++ ['.'] ++ ds2))
    | _ => some (String.mk ds)

/-- In-place mutation of the current session dictionary: updates the
current record and every appended alias of it. -/
def updateCurS (st : SOState) (f : SessionStub → SessionStub) : SOState :=
  match st.curS with
  | none => st
  | some s =>
    let s2 := f s
    { st with
      curS := some s2,
      sessions := st.sessions.take (st.sessions.length - st.aliasCount) ++ List.replicate st.aliasCount s2 }

/-- One iteration of the line loop of `parse_session_outline`. -/
def soStep (st : SOState) (raw : String) : SOState :=
  let line := pyTrim raw
  if line = "" then st
  else if pyStartsWith line "**Session" then
    let st1 :=
      match st.curS with
      | some s =>
        if s.title = "" then st
        else { st with sessions := st.sessions ++ [s], aliasCount := st.aliasCount + 1 }
      | none => st
    match (splitChar ':' (pyTrim (pyStripChars line ['*'])).data).map String.mk with
    | [] => st1
    | [_] => st1
    | info :: rest =>
      let title := pyTrim (joinWith ":" rest)
      match numberSearch (pyTrim info) with
      | none => st1
      | some num =>
        { st1 with curS := some ⟨num, title, "", [], [], []⟩, curTag := none, aliasCount := 0 }
  else if st.curS.isSome && pyStartsWith line "* " then
    if pyContains line "Description:" then
      let st2 := updateCurS st (fun s => { s with description := pyTrim (pyAfterFirst line "Description:") })
      { st2 with curTag := some SessTag.sdescription }
    else if pyContains line "Key Concepts:" then { st with curTag := some SessTag.skey_concepts }
    else if pyContains line "Visual Elements:" then { st with curTag := some SessTag.svisual_elements }
    else if pyContains line "Resources:" then { st with curTag := some SessTag.sresources }
    else st
  else if st.curS.isSome && st.curTag.isSome
      && (pyStartsWith line "+" || pyStartsWith line "-" || pyStartsWith line "\t+") then
    let lc := pyTrim (pyStripChars line ['+', '-', '\t'])
    match st.curTag with
    | some SessTag.skey_concepts => updateCurS st (fun s => { s with key_concepts := s.key_concepts ++ [lc] })
    | some SessTag.svisual_elements => updateCurS st (fun s => { s with visual_elements := s.visual_elements ++ [lc] })
    | some SessTag.sresources => updateCurS st (fun s => { s with resources := s.resources ++ [lc] })
    | _ => st
  else st

/-- `parse_session_outline` (course_generator.py 595-677). -/
def parse_session_outline (outline : String) : List SessionStub :=
  let st := (pyLines (pyTrim outline)).foldl soStep ⟨[], none, none, 0⟩
  match st.curS with
  | some s => if s.title = "" then st.sessions else st.sessions ++ [s]
  | none => st.sessions

/-! ## Workflow transition function (`should_continue`, course_generator.py 679-715) -/

/-- Python truthiness of an optional string field (`state.get(key)` used in
a boolean context): present and non-empty. -/
def truthyStrOpt : Option String → Bool
  | none => false
  | some s => s != ""

/-- The `AgentState` fields `should_continue` reads. -/
structure AgentStateS where
  retries : Nat
  error : Option String
  completed : Bool
  current_stage : String
deriving DecidableEq, Repr

/-- `should_continue` (course_generator.py 679-715). -/
def should_continue (s : AgentStateS) : String :=
  if 5 ≤ s.retries then "end"
  else if truthyStrOpt s.error then "end"
  else if s.completed then "end"
  else if s.current_stage = "start" then "create_outline"
  else if s.current_stage = "outline_created" then "create_modules"
  else if s.current_stage = "modules_created" then "create_sessions"
  else if s.current_stage = "sessions_created" then "finalize"
  else "end"

/-! ## Structural validator (`validate_course_structure`, course_generator.py 1199-1275)

Courses are modelled typed: the dictionary shape checks of the source
(`isinstance`, key presence of `modules` / `sessions` / `sections`) hold by
construction here.  A section dictionary carries the `content` key the
generator writes AND an optional `section_content` key, the one the
validator reads with `section.get('section_content')`. -/

/-- A section dictionary of the assembled course. -/
structure SectionD where
  section_number : String
  title : String
  content : String
  section_content : Option String
deriving DecidableEq, Repr

/-- A session dictionary of the assembled course. -/
structure SessionD where
  title : String
  session_number : String
  sections : List SectionD
  assessment : Option AssessResult
deriving DecidableEq, Repr

/-- A module dictionary of the assembled course. -/
structure ModuleD where
  title : String
  sessions : List SessionD
deriving DecidableEq, Repr

/-- The assembled course dictionary of the exposed `generate_course`. -/
structure CourseD where
  topic : String
  language : String
  modules : List ModuleD
deriving DecidableEq, Repr

/-- `validate_course_structure` (course_generator.py 1199-1275):
module count in [2,3], session count in [3,5], section count in [2,4],
and `section.get('section_content')` truthy for every section. -/
def validate_course_structure (course : CourseD) : Bool :=
  (decide (2 ≤ course.modules.length) && decide (course.modules.length ≤ 3)) &&
  course.modules.all (fun m =>
    (decide (3 ≤ m.sessions.length) && decide (m.sessions.length ≤ 5)) &&
    m.sessions.all (fun s =>
      (decide (2 ≤ s.sections.length) && decide (s.sections.length ≤ 4)) &&
      s.sections.all (fun sec => truthyStrOpt sec.section_content)))

/-! ## The exposed course generator (`generate_course`, course_generator.py 1277-1370)

`course_generator.py` defines `generate_course` twice; the second
definition (lines 1277-1370) shadows the first and is the one imported by
`app.py`.  It is an async generator of status dictionaries; here it is the
list of yielded events, in order, parameterised by the two backend-calling
helpers: `g` stands for `generate_section_content` (which swallows backend
exceptions and returns a string) and `a` for the raw reply consumed by
`generate_session_assessment` (which swallows exceptions and parses the
reply).  The yielded dictionaries carry `status` and `progress` always and
`course_state` / `error` optionally. -/

/-- One yielded progress dictionary of `generate_course`. -/
structure Event where
  status : String
  progress : Nat
  course_state : Option CourseD
  error : Option String
deriving DecidableEq, Repr

/-- An apostrophe, kept out of string literals. -/
def apos : String := String.mk [Char.ofNat 39]

/-- The f-string of `generate_session_assessment` (course_generator.py
1164-1179), with its literal indentation. -/
def assessmentPrompt (session_number topic language : String) : String :=
  "\n        Create an assessment for Session " ++ session_number ++ " about " ++ topic ++
  " in " ++ language ++
  ".\n        \n        Create 5 questions that test understanding of the key concepts.\n        Include a mix of:\n        - Multiple choice questions\n        - Short answer questions\n        - Practical application questions\n        \n        For each question, provide:\n        1. The question text\n        2. The correct answer\n        3. Explanation of why it" ++
  apos ++
  "s correct\n\n        Do not include any other content other than the questions and answers.\n        "

/-- `generate_section_content` (course_generator.py 1145-1159): one backend
call whose exceptions are caught internally, so it is the abstract total
backend `g` itself. -/
def generate_section_content (g : String → String) (prompt : String) : String := g prompt

/-- `generate_session_assessment` (course_generator.py 1161-1197): one
backend call (`a` gives the reply) fed to `parse_assessment_content`;
exceptions are caught internally and yield the empty record, which the
abstract total `a` absorbs. -/
def generate_session_assessment (a : String → String) (session_number topic language : String) : AssessResult :=
  parse_assessment_content (a (assessmentPrompt session_number topic language))

/-- Section skeleton of the structure phase (content is the empty string;
the dictionary has no `section_content` key). -/
def mkSectionSkeleton (m s k : Nat) : SectionD :=
  { section_number := s!"{m + 1}.{s + 1}.{k + 1}",
    title := s!"Section {m + 1}.{s + 1}.{k + 1}",
    content := "",
    section_content := none }

/-- Session skeleton of the structure phase (`session_count = 4`, three
sections each, no assessment yet). -/
def mkSessionSkeleton (m s : Nat) : SessionD :=
  { title := s!"Session {m + 1}.{s + 1}",
    session_number := s!"{m + 1}.{s + 1}",
    sections := (List.range 3).map (mkSectionSkeleton m s),
    assessment := none }

/-- Module skeleton of the structure phase (`module_count = 3`, four
sessions each). -/
def mkModuleSkeleton (m : Nat) : ModuleD :=
  { title := s!"Module {m + 1}", sessions := (List.range 4).map (mkSessionSkeleton m) }

/-- The course skeleton assembled before the content phase. -/
def courseSkeleton (topic language : String) : CourseD :=
  { topic := topic, language := language, modules := (List.range 3).map mkModuleSkeleton }

/-- Content phase, innermost loop body: bump the global section counter,
yield the per-section progress event (`40 + int(cur / total * 50)`; the
float truncation equals natural division at every reachable operand), and
fill `section["content"]` from the backend. -/
def contentStepSection (g : String → String) (topic language : String) (total : Nat)
    (acc : Nat × List Event × List SectionD) (sec : SectionD) : Nat × List Event × List SectionD :=
  let cur := acc.1 + 1
  let ev : Event :=
    { status := s!"Generating content for section {sec.section_number}",
      progress := 40 + cur * 50 / total, course_state := none, error := none }
  let sec2 := { sec with
    content := generate_section_content g
      (s!"Generate comprehensive content for section {sec.section_number} about {topic} in {language}.") }
  (cur, acc.2.1 ++ [ev], acc.2.2 ++ [sec2])

/-- Content phase, per-session body: fill all sections, then attach the
session assessment. -/
def contentStepSession (g a : String → String) (topic language : String) (total : Nat)
    (acc : Nat × List Event × List SessionD) (sess : SessionD) : Nat × List Event × List SessionD :=
  let r := sess.sections.foldl (contentStepSection g topic language total) (acc.1, [], [])
  let sess2 := { sess with
    sections := r.2.2,
    assessment := some (generate_session_assessment a sess.session_number topic language) }
  (r.1, acc.2.1 ++ r.2.1, acc.2.2 ++ [sess2])

/-- Content phase, per-module body. -/
def contentStepModule (g a : String → String) (topic language : String) (total : Nat)
    (acc : Nat × List Event × List ModuleD) (m : ModuleD) : Nat × List Event × List ModuleD :=
  let r := m.sessions.foldl (contentStepSession g a topic language total) (acc.1, [], [])
  (r.1, acc.2.1 ++ r.2.1, acc.2.2 ++ [{ m with sessions := r.2.2 }])

/-- `total_sections` of the content phase. -/
def totalSections (c : CourseD) : Nat :=
  (c.modules.map (fun m => (m.sessions.map (fun s => s.sections.length)).foldl (· + ·) 0)).foldl (· + ·) 0

/-- The whole content phase over the skeleton: final section counter, the
per-section events and the filled modules. -/
def contentPass (g a : String → String) (topic language : String) : Nat × List Event × List ModuleD :=
  let c0 := courseSkeleton topic language
  c0.modules.foldl (contentStepModule g a topic language (totalSections c0)) (0, [], [])

/-- The fully assembled course handed to the validator. -/
def finalCourse (g a : String → String) (topic language : String) : CourseD :=
  { courseSkeleton topic language with modules := (contentPass g a topic language).2.2 }

/-- The exposed `generate_course` (course_generator.py 1277-1370) as its
ordered list of yielded events. -/
def generate_course (g a : String → String) (topic language : String) : List Event :=
  let ev0 : Event := { status := "📚 Creating course outline...", progress := 10, course_state := none, error := none }
  let structEvents := (List.range 3).map (fun i =>
    ({ status := s!"Generated module {i + 1} structure", progress := 20 + i * 20,
       course_state := none, error := none } : Event))
  let contentEvents := (contentPass g a topic language).2.1
  let course1 := finalCourse g a topic language
  let tailEvents :=
    if validate_course_structure course1 then
      [({ status := "Course generation complete", progress := 100,
          course_state := some course1, error := none } : Event)]
    else
      [({ status := "Error: Invalid course structure", progress := 100,
          course_state := none, error := some "Failed to generate valid course structure" } : Event)]
  [ev0] ++ structEvents ++ contentEvents ++ tailEvents

/-- Boolean `non-decreasing` check for a progress sequence. -/
def sortedLE : List Nat → Bool
  | [] => true
  | [_] => true
  | a :: b :: t => decide (a ≤ b) && sortedLE (b :: t)

/-! ## `create_course_from_state` (course_generator.py 1036-1104)

The module loop obtains the current module from the current state, then in
one `try` block runs `generate_module_content`, the per-session loop and
the completion status update; its `except` appends
`Failed to generate module {i+1}: ...` to `errors` and continues with the
next module.  Inside, each session runs `generate_session_content` in its
own `try`; its `except` appends `Failed to generate session {j+1}: ...`
and continues with the next session.  Neither generator function exists in
the file, so they are parameters here: arbitrary fallible state
transformers (`Except String` models raised exceptions; the carried string
is `str(e)`).  Exceptions raised outside the two `try` blocks (a missing
or shrunk `course_plan`, a missing `course_outline`) propagate out of the
function, re-raised by its outermost handler. -/

/-- A session stub inside the course plan. -/
structure PSession where
  title : String
deriving DecidableEq, Repr

/-- A module of the course plan. -/
structure PModule where
  title : String
  sessions : List PSession
deriving DecidableEq, Repr

/-- The `course_plan` dictionary. -/
structure PlanD where
  modules : List PModule
deriving DecidableEq, Repr

/-- The `course_outline` dictionary fields read here. -/
structure OutlineD where
  description : String
  prerequisites : List String
deriving DecidableEq, Repr

/-- The mutable state dictionary threaded through
`create_course_from_state`. -/
structure CGenState where
  topic : String
  language : String
  course_plan : Option PlanD
  course_outline : Option OutlineD
  current_module_number : Nat
  current_session_number : Nat
  total_modules : Nat
  total_sessions : Nat
  errors : List String
  status : String
deriving DecidableEq, Repr

/-- The plain course dictionary returned on success. -/
structure CourseOut where
  topic : String
  language : String
  description : String
  prerequisites : List String
  modules : List PModule
deriving DecidableEq, Repr

/-- One iteration of the per-session loop (course_generator.py 1065-1079):
set the session counter and status, call `generate_session_content`, and on
an exception append the session failure message and continue. -/
def sessionStep (gs : CGenState → Except String CGenState) (cm : PModule)
    (module_index total_modules : Nat) (st : CGenState) (session_index : Nat) : CGenState :=
  let st := { st with current_session_number := session_index }
  let stitle := (cm.sessions.get? session_index).elim "" PSession.title
  let st := { st with
    status := s!"[Module {module_index + 1}/{total_modules}] Generating Session {session_index + 1}: {stitle}" }
  match gs st with
  | .ok st2 => st2
  | .error e => { st with errors := st.errors ++ [s!"Failed to generate session {session_index + 1}: {e}"] }

/-- One iteration of the module loop (course_generator.py 1048-1089). -/
def moduleStep (gm gs : CGenState → Except String CGenState) (total_modules : Nat)
    (st : CGenState) (module_index : Nat) : Except String CGenState :=
  let st := { st with current_module_number := module_index }
  match st.course_plan with
  | none => .error "TypeError: NoneType is not subscriptable"
  | some plan =>
    match plan.modules.get? module_index with
    | none => .error "IndexError: list index out of range"
    | some cm =>
      let st := { st with
        status := s!"[Module {module_index + 1}/{total_modules}] Generating content for Module: {cm.title}" }
      match gm st with
      | .error e =>
        .ok { st with errors := st.errors ++ [s!"Failed to generate module {module_index + 1}: {e}"] }
      | .ok st2 =>
        let total_sessions := cm.sessions.length
        let st3 := { st2 with total_sessions := total_sessions }
        let st4 := (List.range total_sessions).foldl (sessionStep gs cm module_index total_modules) st3
        .ok { st4 with
          status := s!"[Module {module_index + 1}/{total_modules}] Completed module {apos}{cm.title}{apos}" }

/-- The whole module loop. -/
def processModules (gm gs : CGenState → Except String CGenState) (st : CGenState) :
    Except String CGenState :=
  (List.range st.total_modules).foldlM (moduleStep gm gs st.total_modules) st

/-- `create_course_from_state` (course_generator.py 1036-1104). -/
def create_course_from_state (gm gs : CGenState → Except String CGenState)
    (state : CGenState) : Except String CourseOut :=
  match state.course_plan with
  | none => .error "No course plan found in state"
  | some plan0 =>
    let st := { state with total_modules := plan0.modules.length }
    match processModules gm gs st with
    | .error e => .error e
    | .ok st2 =>
      match st2.course_outline with
      | none => .error "KeyError: course_outline"
      | some outline =>
        match st2.course_plan with
        | none => .error "AttributeError: NoneType has no attribute get"
        | some plan =>
          .ok { topic := st2.topic, language := st2.language,
                description := outline.description, prerequisites := outline.prerequisites,
                modules := plan.modules }

/-- A generator preserves the `course_plan` field of the state (it neither
replaces nor deletes the plan). -/
def preservesPlan (f : CGenState → Except String CGenState) : Prop :=
  ∀ s t, f s = .ok t → t.course_plan = s.course_plan

/-- A generator preserves the `course_outline` field of the state. -/
def preservesOutline (f : CGenState → Except String CGenState) : Prop :=
  ∀ s t, f s = .ok t → t.course_outline = s.course_outline

/-- The progress percentages one run of the exposed `generate_course`
yields, in order: 10; 20/40/60 after each module skeleton; the 36
per-section values `40 + 50k/36`; the terminal 100. -/
def progressProfile : List Nat :=
  [10, 20, 40, 60,
   41, 42, 44, 45, 46, 48, 49, 51, 52, 53, 55, 56, 58, 59, 60, 62, 63, 65,
   66, 67, 69, 70, 71, 73, 74, 76, 77, 78, 80, 81, 83, 84, 85, 87, 88, 90,
   100]

/-! # Theorems -/

theorem pyStartsWith_hh {s : String} (h : pyStartsWith s "##" = true) :
    pyStartsWith s "#" = true := by
  unfold pyStartsWith at *
  cases hd : s.data with
  | nil => simp [hd, List.isPrefixOf] at h
  | cons c t =>
    simp [hd, List.isPrefixOf] at h ⊢
    exact h.1

/-- C1: for every topic, language and backend behaviour, the exposed
`generate_course` (the second definition of that name, which shadows the
first) never yields an event whose `course_state` key is set: the assembled
course stores section text under `content` while
`validate_course_structure` demands a truthy `section_content`, so the
validation step always fails and the terminal event is the failure event
with percent 100. -/
theorem c1_generate_course_never_completes (g a : String → String) (topic language : String) :
    (generate_course g a topic language).all (fun e => e.course_state.isNone) = true
    ∧ validate_course_structure (finalCourse g a topic language) = false
    ∧ (generate_course g a topic language).getLast? =
        some { status := "Error: Invalid course structure", progress := 100,
               course_state := none, error := some "Failed to generate valid course structure" } := by
  refine ⟨?_, ?_, ?_⟩ <;> rfl

/-- C2: counterexample — on a concrete backend the emitted progress values
of one full run of the exposed `generate_course` are NOT monotonically
non-decreasing (the fourth event carries 60 and the fifth carries 41). -/
theorem c2_progress_not_monotone :
    sortedLE ((generate_course (fun _ => "") (fun _ => "") "topic" "English").map Event.progress) = false
    ∧ ((generate_course (fun _ => "") (fun _ => "") "topic" "English").map Event.progress).get? 3 = some 60
    ∧ ((generate_course (fun _ => "") (fun _ => "") "topic" "English").map Event.progress).get? 4 = some 41 := by
  refine ⟨?_, ?_, ?_⟩ <;> rfl


theorem generate_course_events_const (g a : String → String) (topic language : String) :
    generate_course g a topic language = generate_course (fun _ => "") (fun _ => "") "" "" := by
  rfl

/-- C2 (amended): for every backend, topic and language, one run of the
exposed `generate_course` emits exactly the progress sequence
`progressProfile`; that sequence is non-decreasing within the
module-structure phase (first four events) and within the
content-and-terminal phase (the rest), but drops once, from 60 to 41, at
the boundary between the two; the final event's percent equals 100 whether
the run ends in completion or in failure. -/
theorem c2_progress_profile (g a : String → String) (topic language : String) :
    (generate_course g a topic language).map Event.progress = progressProfile
    ∧ ((generate_course g a topic language).map Event.progress).getLast? = some 100
    ∧ sortedLE (progressProfile.take 4) = true
    ∧ sortedLE (progressProfile.drop 4) = true := by
  rw [generate_course_events_const]
  refine ⟨?_, ?_, ?_, ?_⟩ <;> rfl

/-- C3: evaluation of `parse_assessment_content` at the specification's
example input.  The parser returns the raw question line paired with the
bare answer letter; it extracts no question type, no options list and no
explanation (the `a)` / `b)` and `Explanation:` lines are dropped), unlike
the structured question record the specification, `models.py` and the
consumers in `app.py` call for. -/
theorem c3_parse_assessment_on_spec_example :
    parse_assessment_content "1. What is X?\na) foo\nb) bar\nAnswer: a\nExplanation: because" =
      { questions := ["1. What is X?"], answers := [some "a"] } := by
  rfl

theorem apStep_length {st : APState} (raw : String)
    (h : st.questions.length = st.answers.length) :
    (apStep st raw).questions.length = (apStep st raw).answers.length := by
  unfold apStep
  dsimp only
  (repeat' split) <;> simp [h]

theorem apFold_length : ∀ (lines : List String) (st : APState),
    st.questions.length = st.answers.length →
    ((lines.foldl apStep st).questions.length = (lines.foldl apStep st).answers.length)
  | [], _, h => h
  | l :: ls, st, h => apFold_length ls (apStep st l) (apStep_length l h)

/-- C10: for every input string the two lists returned by
`parse_assessment_content` have equal length; moreover (shown on the
borderline inputs) a trailing question with no subsequent answer line is
dropped from both lists, while a non-final question without an answer line
is flushed paired with a null answer. -/
theorem c10_questions_answers_aligned :
    (∀ content : String,
      (parse_assessment_content content).questions.length =
        (parse_assessment_content content).answers.length)
    ∧ parse_assessment_content "1. Q\nAnswer: a\n2. R" = { questions := ["1. Q"], answers := [some "a"] }
    ∧ parse_assessment_content "1. Q\n2. R\nAnswer: b" =
        { questions := ["1. Q", "2. R"], answers := [none, some "b"] } := by
  refine ⟨?_, by rfl, by rfl⟩
  intro content
  unfold parse_assessment_content
  dsimp only
  have h := apFold_length (pyLines (pyTrim content)) ⟨[], [], none, none⟩ rfl
  set st := (pyLines (pyTrim content)).foldl apStep ⟨[], [], none, none⟩ with hst
  cases hq : st.curQ <;> cases ha : st.curA <;> simp [hq, ha, h]
  split <;> simp [h]

theorem scStep_nosubs {st : SCState} (raw : String)
    (hs : (st.sections.all (fun s => s.subsections.isEmpty)) = true)
    (hc : ∀ sec, st.cur = some sec → sec.subsections = []) :
    ((scStep st raw).sections.all (fun s => s.subsections.isEmpty)) = true
    ∧ ∀ sec, (scStep st raw).cur = some sec → sec.subsections = [] := by
  unfold scStep
  dsimp only
  split
  · exact ⟨hs, hc⟩
  · split
    · split
      · next sec heq =>
        constructor
        · simp [hs, hc sec heq]
        · intro s hssome
          simp only [Option.some.injEq] at hssome
          simp [← hssome]
      · constructor
        · exact hs
        · intro s hssome
          simp only [Option.some.injEq] at hssome
          simp [← hssome]
    · split
      · next hnothash hhash =>
        exact absurd (pyStartsWith_hh hhash) (by simpa using hnothash)
      · exact ⟨hs, hc⟩

theorem scFold_nosubs : ∀ (lines : List String) (st : SCState),
    (st.sections.all (fun s => s.subsections.isEmpty)) = true →
    (∀ sec, st.cur = some sec → sec.subsections = []) →
    ((lines.foldl scStep st).sections.all (fun s => s.subsections.isEmpty)) = true
    ∧ ∀ sec, (lines.foldl scStep st).cur = some sec → sec.subsections = []
  | [], _, hs, hc => ⟨hs, hc⟩
  | l :: ls, st, hs, hc =>
    scFold_nosubs ls (scStep st l) (scStep_nosubs l hs hc).1 (scStep_nosubs l hs hc).2

/-- C4: a line starting with `##` does NOT become a subsection of the
current section: since such a line also starts with `#`, the first branch
of `parse_section_content` fires and opens a new top-level section, and the
subsection branch of the source is unreachable.  Concretely the input
`# A / text / ## B / more` parses to two top-level sections with no
subsections, and no input ever produces a non-empty `subsections` list. -/
theorem c4_subsection_branch_dead :
    parse_section_content "# A\ntext\n## B\nmore" =
      [{ title := "A", content := "text", subsections := [] },
       { title := "B", content := "more", subsections := [] }]
    ∧ ∀ content : String,
        (parse_section_content content).all (fun s => s.subsections.isEmpty) = true := by
  refine ⟨by rfl, ?_⟩
  intro content
  unfold parse_section_content
  dsimp only
  have h := scFold_nosubs (pyLines content) ⟨[], none, []⟩ rfl (by intro sec hsec; cases hsec)
  set st := (pyLines content).foldl scStep ⟨[], none, []⟩ with hst
  cases hq : st.cur with
  | none => simpa [hq] using h.1
  | some sec =>
    simp only [hq]
    split
    · exact h.1
    · simp [List.all_append, h.1, h.2 sec hq]

/-- C7: counterexample — the input `# A\n# B` makes `parse_section_content`
emit the section `A` with an EMPTY content body (the mid-stream flush
performed when a new heading arrives does not drop body-less sections), so
the returned list can contain a section whose content body is empty. -/
theorem c7_empty_section_emitted :
    (parse_section_content "# A\n# B").any (fun s => s.content == "") = true
    ∧ parse_section_content "# A\n# B" = [{ title := "A", content := "", subsections := [] }] := by
  exact ⟨by rfl, by rfl⟩

theorem joinLines_ne_empty {l : String} (ls : List String) (h : l ≠ "") :
    joinLines (l :: ls) ≠ "" := by
  cases ls with
  | nil => simpa [joinLines] using h
  | cons m r =>
    intro hEq
    have hd := congrArg String.data hEq
    simp only [joinLines, String.data_append] at hd
    simp at hd

theorem scStep_empty_bound {st : SCState} (raw : String) (h : Nat)
    (h1 : emptyContentCount st.sections + (if st.cur.isSome then 1 else 0) ≤ h)
    (h2 : st.cur = none → h = 0)
    (h3 : ∀ l ∈ st.buf, l ≠ "") :
    emptyContentCount (scStep st raw).sections + (if (scStep st raw).cur.isSome then 1 else 0)
      ≤ h + (if (decide (pyTrim raw ≠ "") && pyStartsWith (pyTrim raw) "#") = true then 1 else 0)
    ∧ ((scStep st raw).cur = none →
        h + (if (decide (pyTrim raw ≠ "") && pyStartsWith (pyTrim raw) "#") = true then 1 else 0) = 0)
    ∧ ∀ l ∈ (scStep st raw).buf, l ≠ "" := by
  unfold scStep
  dsimp only
  split
  · next hblank =>
    refine ⟨?_, ?_, h3⟩
    · simpa [hblank] using h1
    · simpa [hblank] using h2
  · next hblank =>
    split
    · next hhash =>
      split
      · next sec hsec =>
        refine ⟨?_, by simp, by simp⟩
        simp only [hsec, Option.isSome_some, if_pos] at h1
        simp only [emptyContentCount] at h1 ⊢
        simp [List.countP_append, hblank, hhash, List.countP_cons]
        have hle : (if joinLines st.buf = "" then 1 else 0) ≤ 1 := by split <;> omega
        omega
      · next hsec =>
        refine ⟨?_, by simp, h3⟩
        simp only [hsec] at h1
        simp only [Option.isSome_none] at h1
        simp [hblank, hhash]
        omega
    · next hhash =>
      split
      · next hhash2 =>
        split
        · next hbuf =>
          exact ⟨by simp [hhash]; exact h1, by simp [hhash]; exact h2, h3⟩
        · next hbuf =>
          split
          · next sec hsec =>
            refine ⟨?_, by simp, by simp⟩
            simp [hhash]
            simpa [hsec] using h1
          · next hsec =>
            refine ⟨?_, ?_, by simp⟩
            · simp [hhash]
              simpa [hsec] using h1
            · simp [hhash]
              simpa [hsec] using h2
      · next hhash2 =>
        refine ⟨by simp [hhash]; exact h1, by simp [hhash]; exact h2, ?_⟩
        intro l hl
        simp only [List.mem_append, List.mem_singleton] at hl
        rcases hl with hl | hl
        · exact h3 l hl
        · rw [hl]; exact fun hEq => hblank (by simpa using hEq)

theorem scFold_empty_bound : ∀ (lines : List String) (st : SCState) (h : Nat),
    emptyContentCount st.sections + (if st.cur.isSome then 1 else 0) ≤ h →
    (st.cur = none → h = 0) →
    (∀ l ∈ st.buf, l ≠ "") →
    emptyContentCount (lines.foldl scStep st).sections
        + (if (lines.foldl scStep st).cur.isSome then 1 else 0)
      ≤ h + lines.countP (fun raw => decide (pyTrim raw ≠ "") && pyStartsWith (pyTrim raw) "#")
    ∧ ((lines.foldl scStep st).cur = none →
        h + lines.countP (fun raw => decide (pyTrim raw ≠ "") && pyStartsWith (pyTrim raw) "#") = 0)
    ∧ ∀ l ∈ (lines.foldl scStep st).buf, l ≠ "" := by
  intro lines
  induction lines with
  | nil =>
    intro st h h1 h2 h3
    simpa using ⟨h1, h2, h3⟩
  | cons l ls ih =>
    intro st h h1 h2 h3
    have hs := scStep_empty_bound l h h1 h2 h3
    have IH := ih (scStep st l)
      (h + (if (decide (pyTrim l ≠ "") && pyStartsWith (pyTrim l) "#") = true then 1 else 0))
      hs.1 hs.2.1 hs.2.2
    simp only [List.foldl_cons, List.countP_cons]
    refine ⟨?_, ?_, IH.2.2⟩
    · have := IH.1
      omega
    · intro hnone
      have := IH.2.1 hnone
      omega

/-- C7 (amended): `parse_section_content` drops only the section still
pending at end of input when its body is empty; a section flushed
mid-stream by a later heading line is emitted even with an empty content
body.  Hence for every input the number of emitted sections with empty
content body is at most the number of heading lines minus one (in
particular an input with a single heading never yields an empty section,
but inputs with several headings can, as `c7_empty_section_emitted`
shows). -/
theorem c7_trailing_empty_section_dropped : ∀ content : String,
    emptyContentCount (parse_section_content content) ≤ headingLineCount content - 1 := by
  intro content
  unfold parse_section_content headingLineCount
  dsimp only
  have H := scFold_empty_bound (pyLines content) ⟨[], none, []⟩ 0
    (by simp [emptyContentCount]) (fun _ => rfl) (by intro l hl; cases hl)
  set st := (pyLines content).foldl scStep ⟨[], none, []⟩ with hst
  set k := (pyLines content).countP
    (fun raw => decide (pyTrim raw ≠ "") && pyStartsWith (pyTrim raw) "#") with hk
  obtain ⟨h1, h2, h3⟩ := H
  cases hq : st.cur with
  | none =>
    rw [hq] at h1
    have hk0 : 0 + k = 0 := h2 hq
    simp only [hq]
    simp only [Option.isSome_none] at h1
    omega
  | some sec =>
    rw [hq] at h1
    simp only [Option.isSome_some, if_pos, Nat.zero_add] at h1
    simp only [hq]
    split
    · omega
    · next hbuf =>
      cases hbufc : st.buf with
      | nil => exact absurd hbufc hbuf
      | cons l ls =>
        have hne : joinLines (l :: ls) ≠ "" :=
          joinLines_ne_empty ls (h3 l (by rw [hbufc]; exact List.mem_cons_self l ls))
        simp only [emptyContentCount, List.countP_append, List.countP_cons] at h1 ⊢
        simp [hne]
        omega

/-- C5: `validate_course_structure` returns false for every course with
exactly 1 or exactly 6 modules, and returns true for any course with 2 or 3
modules in which every module has 3 to 5 sessions, every session has 2 to 4
sections, and every section has a truthy (present and non-empty)
`section_content` — the content field the validator reads. -/
theorem c5_validator_module_counts :
    (∀ c : CourseD, c.modules.length = 1 ∨ c.modules.length = 6 →
      validate_course_structure c = false)
    ∧ (∀ c : CourseD, 2 ≤ c.modules.length → c.modules.length ≤ 3 →
        (∀ m ∈ c.modules, (3 ≤ m.sessions.length ∧ m.sessions.length ≤ 5)
          ∧ ∀ s ∈ m.sessions, (2 ≤ s.sections.length ∧ s.sections.length ≤ 4)
            ∧ ∀ sec ∈ s.sections, truthyStrOpt sec.section_content = true) →
        validate_course_structure c = true) := by
  constructor
  · intro c h
    unfold validate_course_structure
    rcases h with h | h <;> simp [h]
  · intro c h2 h3 hall
    unfold validate_course_structure
    simp only [Bool.and_eq_true, decide_eq_true_eq, List.all_eq_true]
    refine ⟨⟨h2, h3⟩, ?_⟩
    intro m hm
    obtain ⟨⟨hs3, hs5⟩, hsess⟩ := hall m hm
    refine ⟨⟨hs3, hs5⟩, ?_⟩
    intro s hs
    obtain ⟨⟨hc2, hc4⟩, hsec⟩ := hsess s hs
    exact ⟨⟨hc2, hc4⟩, hsec⟩

theorem c5_validator_module_counts_witness :
    validate_course_structure
      ⟨"t", "l", List.replicate 2 ⟨"M", List.replicate 3
        ⟨"S", "1", List.replicate 2 ⟨"1", "x", "", some "c"⟩, none⟩⟩⟩ = true
    ∧ validate_course_structure ⟨"t", "l", [⟨"M", []⟩]⟩ = false
    ∧ validate_course_structure ⟨"t", "l", List.replicate 6 ⟨"M", []⟩⟩ = false :=
  ⟨c5_validator_module_counts.2 _ (by decide) (by decide) (by decide),
   c5_validator_module_counts.1 _ (Or.inl (by decide)),
   c5_validator_module_counts.1 _ (Or.inr (by decide))⟩

/-- C6: `should_continue` applies its rules in priority order — retries at
least 5 gives `end`; otherwise a set (truthy) error gives `end`; otherwise
completion gives `end`; otherwise it dispatches on `current_stage`, mapping
`start`, `outline_created`, `modules_created`, `sessions_created` to
`create_outline`, `create_modules`, `create_sessions`, `finalize`
respectively, and any other stage to `end`. -/
theorem c6_should_continue_priority (s : AgentStateS) :
    (5 ≤ s.retries → should_continue s = "end")
    ∧ (s.retries < 5 → truthyStrOpt s.error = true → should_continue s = "end")
    ∧ (s.retries < 5 → truthyStrOpt s.error = false → s.completed = true → should_continue s = "end")
    ∧ (s.retries < 5 → truthyStrOpt s.error = false → s.completed = false →
        should_continue s =
          (if s.current_stage = "start" then "create_outline"
           else if s.current_stage = "outline_created" then "create_modules"
           else if s.current_stage = "modules_created" then "create_sessions"
           else if s.current_stage = "sessions_created" then "finalize"
           else "end")) := by
  refine ⟨?_, ?_, ?_, ?_⟩
  · intro h
    simp [should_continue, h]
  · intro h he
    have hn : ¬ 5 ≤ s.retries := by omega
    simp [should_continue, hn, he]
  · intro h he hc
    have hn : ¬ 5 ≤ s.retries := by omega
    simp [should_continue, hn, he, hc]
  · intro h he hc
    have hn : ¬ 5 ≤ s.retries := by omega
    simp [should_continue, hn, he, hc]

theorem c6_should_continue_priority_witness :
    should_continue ⟨5, none, false, "start"⟩ = "end"
    ∧ should_continue ⟨0, some "x", false, "start"⟩ = "end"
    ∧ should_continue ⟨0, none, true, "start"⟩ = "end"
    ∧ should_continue ⟨0, none, false, "outline_created"⟩ = "create_modules" :=
  ⟨(c6_should_continue_priority ⟨5, none, false, "start"⟩).1 (by decide),
   (c6_should_continue_priority ⟨0, some "x", false, "start"⟩).2.1 (by decide) (by decide),
   (c6_should_continue_priority ⟨0, none, true, "start"⟩).2.2.1 (by decide) (by decide) (by decide),
   by
    have h := (c6_should_continue_priority ⟨0, none, false, "outline_created"⟩).2.2.2
      (by decide) (by decide) (by decide)
    simpa using h⟩
theorem moFold_noise : ∀ (lines : List String) (st : MOState),
    st.curM = none → st.modules = [] →
    (∀ l ∈ lines, moduleHeaderMatch (pyTrim l) = none) →
    (lines.foldl moStep st).curM = none ∧ (lines.foldl moStep st).modules = [] := by
  intro lines
  induction lines with
  | nil => intro st hc hm _; exact ⟨hc, hm⟩
  | cons l ls ih =>
    intro st hc hm hall
    have hstep : (moStep st l).curM = none ∧ (moStep st l).modules = [] := by
      have hl := hall l (List.mem_cons_self l ls)
      unfold moStep
      dsimp only
      split
      · exact ⟨hc, hm⟩
      · split
        · next num titl heq => rw [hl] at heq; cases heq
        · split
          · exact ⟨hc, hm⟩
          · split
            · next heq _ => rw [hc] at heq; cases heq
            · exact ⟨hc, hm⟩
    exact ih (moStep st l) hstep.1 hstep.2 (fun x hx => hall x (List.mem_cons_of_mem l hx))

theorem scFold_noise : ∀ (lines : List String) (st : SCState),
    st.cur = none → st.sections = [] →
    (∀ l ∈ lines, pyStartsWith (pyTrim l) "#" = false) →
    (lines.foldl scStep st).cur = none ∧ (lines.foldl scStep st).sections = [] := by
  intro lines
  induction lines with
  | nil => intro st hc hm _; exact ⟨hc, hm⟩
  | cons l ls ih =>
    intro st hc hm hall
    have hstep : (scStep st l).cur = none ∧ (scStep st l).sections = [] := by
      have hl := hall l (List.mem_cons_self l ls)
      unfold scStep
      dsimp only
      split
      · exact ⟨hc, hm⟩
      · split
        · next hh => rw [hl] at hh; cases hh
        · split
          · split
            · exact ⟨hc, hm⟩
            · split
              · next sec heq => rw [hc] at heq; cases heq
              · exact ⟨hc, hm⟩
          · exact ⟨hc, hm⟩
    exact ih (scStep st l) hstep.1 hstep.2 (fun x hx => hall x (List.mem_cons_of_mem l hx))

theorem soFold_noise : ∀ (lines : List String) (st : SOState),
    st.curS = none → st.sessions = [] →
    (∀ l ∈ lines, pyStartsWith (pyTrim l) "**Session" = false) →
    (lines.foldl soStep st).curS = none ∧ (lines.foldl soStep st).sessions = [] := by
  intro lines
  induction lines with
  | nil => intro st hc hm _; exact ⟨hc, hm⟩
  | cons l ls ih =>
    intro st hc hm hall
    have hstep : (soStep st l).curS = none ∧ (soStep st l).sessions = [] := by
      have hl := hall l (List.mem_cons_self l ls)
      unfold soStep
      dsimp only
      split
      · exact ⟨hc, hm⟩
      · split
        · next hh => rw [hl] at hh; cases hh
        · split
          · next hcur =>
            rw [hc] at hcur
            simp at hcur
          · split
            · next hcur =>
              rw [hc] at hcur
              simp at hcur
            · exact ⟨hc, hm⟩
    exact ih (soStep st l) hstep.1 hstep.2 (fun x hx => hall x (List.mem_cons_of_mem l hx))

theorem apFold_noise : ∀ (lines : List String) (st : APState),
    st.curQ = none → st.questions = [] → st.answers = [] →
    (∀ l ∈ lines, isQuestionStart (pyTrim l) = false) →
    (lines.foldl apStep st).curQ = none ∧ (lines.foldl apStep st).questions = []
      ∧ (lines.foldl apStep st).answers = [] := by
  intro lines
  induction lines with
  | nil => intro st hc hq ha _; exact ⟨hc, hq, ha⟩
  | cons l ls ih =>
    intro st hc hq ha hall
    have hstep : (apStep st l).curQ = none ∧ (apStep st l).questions = []
        ∧ (apStep st l).answers = [] := by
      have hl := hall l (List.mem_cons_self l ls)
      unfold apStep
      dsimp only
      split
      · exact ⟨hc, hq, ha⟩
      · split
        · next hh => rw [hl] at hh; cases hh
        · split
          · exact ⟨hc, hq, ha⟩
          · exact ⟨hc, hq, ha⟩
    exact ih (apStep st l) hstep.1 hstep.2.1 hstep.2.2 (fun x hx => hall x (List.mem_cons_of_mem l hx))

/-- C8: each of the four parsers is a total function of its input (their
embeddings have no failing path; the only `try`/`except` wrappers in the
source re-raise nothing reachable), an empty input yields an empty
collection, and an input none of whose lines matches the parser's opening
trigger — its other lines are silently dropped — also yields an empty
collection. -/
theorem c8_parsers_tolerant (noise : String)
    (hmo : ∀ l ∈ pyLines noise, moduleHeaderMatch (pyTrim l) = none)
    (hsc : ∀ l ∈ pyLines noise, pyStartsWith (pyTrim l) "#" = false)
    (hso : ∀ l ∈ pyLines (pyTrim noise), pyStartsWith (pyTrim l) "**Session" = false)
    (hap : ∀ l ∈ pyLines (pyTrim noise), isQuestionStart (pyTrim l) = false) :
    parse_module_outline "" = [] ∧ parse_section_content "" = []
    ∧ parse_session_outline "" = [] ∧ parse_assessment_content "" = ⟨[], []⟩
    ∧ parse_module_outline noise = [] ∧ parse_section_content noise = []
    ∧ parse_session_outline noise = [] ∧ parse_assessment_content noise = ⟨[], []⟩ := by
  refine ⟨by rfl, by rfl, by rfl, by rfl, ?_, ?_, ?_, ?_⟩
  · unfold parse_module_outline
    dsimp only
    have h := moFold_noise (pyLines noise) ⟨[], none, none⟩ rfl rfl hmo
    set st := (pyLines noise).foldl moStep ⟨[], none, none⟩ with hst
    simp [h.1, h.2]
  · unfold parse_section_content
    dsimp only
    have h := scFold_noise (pyLines noise) ⟨[], none, []⟩ rfl rfl hsc
    set st := (pyLines noise).foldl scStep ⟨[], none, []⟩ with hst
    simp [h.1, h.2]
  · unfold parse_session_outline
    dsimp only
    have h := soFold_noise (pyLines (pyTrim noise)) ⟨[], none, none, 0⟩ rfl rfl hso
    set st := (pyLines (pyTrim noise)).foldl soStep ⟨[], none, none, 0⟩ with hst
    simp [h.1, h.2]
  · unfold parse_assessment_content
    dsimp only
    have h := apFold_noise (pyLines (pyTrim noise)) ⟨[], [], none, none⟩ rfl rfl rfl hap
    set st := (pyLines (pyTrim noise)).foldl apStep ⟨[], [], none, none⟩ with hst
    cases hA : st.curA <;> simp [h.1, h.2.1, h.2.2, hA]

theorem c8_parsers_tolerant_witness :
    parse_module_outline "hello world\nsome plain text" = []
    ∧ parse_section_content "hello world\nsome plain text" = []
    ∧ parse_session_outline "hello world\nsome plain text" = []
    ∧ parse_assessment_content "hello world\nsome plain text" = ⟨[], []⟩ := by
  have h := c8_parsers_tolerant "hello world\nsome plain text"
    (by decide) (by decide) (by decide) (by decide)
  exact ⟨h.2.2.2.2.1, h.2.2.2.2.2.1, h.2.2.2.2.2.2.1, h.2.2.2.2.2.2.2⟩
theorem sessionFold_preserves (gs : CGenState → Except String CGenState) (cm : PModule)
    (mi tm : Nat) (hp : preservesPlan gs) (ho : preservesOutline gs) :
    ∀ (js : List Nat) (st : CGenState),
    ((js.foldl (sessionStep gs cm mi tm) st).course_plan = st.course_plan
      ∧ (js.foldl (sessionStep gs cm mi tm) st).course_outline = st.course_outline)
  | [], st => ⟨rfl, rfl⟩
  | j :: js, st => by
    have hstep : (sessionStep gs cm mi tm st j).course_plan = st.course_plan
        ∧ (sessionStep gs cm mi tm st j).course_outline = st.course_outline := by
      unfold sessionStep
      dsimp only
      split
      · next st2 hok =>
        have h1 := hp _ _ hok
        have h2 := ho _ _ hok
        exact ⟨h1.trans rfl, h2.trans rfl⟩
      · exact ⟨rfl, rfl⟩
    have IH := sessionFold_preserves gs cm mi tm hp ho js (sessionStep gs cm mi tm st j)
    simp only [List.foldl_cons]
    exact ⟨IH.1.trans hstep.1, IH.2.trans hstep.2⟩

theorem moduleStep_ok {gm gs : CGenState → Except String CGenState} (tm : Nat)
    {plan0 : PlanD} {st : CGenState} {i : Nat}
    (hgmp : preservesPlan gm) (hgsp : preservesPlan gs)
    (hgmo : preservesOutline gm) (hgso : preservesOutline gs)
    (hplan : st.course_plan = some plan0) (hi : i < plan0.modules.length) :
    ∃ st', moduleStep gm gs tm st i = .ok st'
      ∧ st'.course_plan = some plan0 ∧ st'.course_outline = st.course_outline := by
  have hget : plan0.modules.get? i = some (plan0.modules.get ⟨i, hi⟩) := List.get?_eq_get hi
  unfold moduleStep
  dsimp only
  split
  · next heq => rw [hplan] at heq; cases heq
  · next plan hpeq =>
    rw [hplan] at hpeq
    injection hpeq with hpe
    subst hpe
    split
    · next heq2 => rw [hget] at heq2; cases heq2
    · next cm heq2 =>
      split
      · next e hgm =>
        exact ⟨_, rfl, hplan, rfl⟩
      · next st4 hgm =>
        have hp4 := hgmp _ _ hgm
        have ho4 := hgmo _ _ hgm
        have hsf := sessionFold_preserves gs cm i tm hgsp hgso
          (List.range cm.sessions.length) { st4 with total_sessions := cm.sessions.length }
        refine ⟨_, rfl, ?_, ?_⟩
        · exact ((hsf.1.trans rfl).trans (hp4.trans rfl)).trans hplan
        · exact (hsf.2.trans rfl).trans (ho4.trans rfl)

theorem moduleFoldM_ok {gm gs : CGenState → Except String CGenState} {tm : Nat}
    {plan0 : PlanD}
    (hgmp : preservesPlan gm) (hgsp : preservesPlan gs)
    (hgmo : preservesOutline gm) (hgso : preservesOutline gs) :
    ∀ (idxs : List Nat) (st : CGenState),
    st.course_plan = some plan0 →
    (∀ i ∈ idxs, i < plan0.modules.length) →
    ∃ st', List.foldlM (moduleStep gm gs tm) st idxs = .ok st'
      ∧ st'.course_plan = some plan0 ∧ st'.course_outline = st.course_outline := by
  intro idxs
  induction idxs with
  | nil => intro st hplan _; exact ⟨st, rfl, hplan, rfl⟩
  | cons i idxs ih =>
    intro st hplan hbound
    obtain ⟨st1, hstep, hp1, ho1⟩ :=
      moduleStep_ok tm hgmp hgsp hgmo hgso hplan (hbound i (List.mem_cons_self i idxs))
    obtain ⟨st2, hfold, hp2, ho2⟩ := ih st1 hp1 (fun j hj => hbound j (List.mem_cons_of_mem i hj))
    refine ⟨st2, ?_, hp2, ho2.trans ho1⟩
    simp only [List.foldlM_cons, hstep]
    exact hfold

/-- C9 (amended): in `create_course_from_state`, a failure of the session
generator is caught in the per-session loop — the message
`Failed to generate session {j+1}: ...` is appended to `errors` and the
loop continues with the next session (shown concretely: session 2 of 3
fails, sessions 1 and 3 still run) — AND, in the same way, a failure of the
module generator is caught by the per-module loop, so generator exceptions
at either level never abort the run: for every pair of generators that keep
the plan and outline fields intact, `create_course_from_state` returns a
course normally. -/
theorem c9_session_and_module_failure_tolerated :

    (∀ (gm gs : CGenState → Except String CGenState) (st : CGenState)
        (plan0 : PlanD) (outline0 : OutlineD),
      st.course_plan = some plan0 → st.course_outline = some outline0 →
      preservesPlan gm → preservesPlan gs → preservesOutline gm → preservesOutline gs →
      ∃ c, create_course_from_state gm gs st = .ok c)
    ∧ processModules (fun s => .ok s)
        (fun s => if s.current_session_number == 1 then .error "boom"
                  else .ok { s with topic := s.topic ++ "!" })
        ⟨"t", "en", some ⟨[⟨"M1", [⟨"S1"⟩, ⟨"S2"⟩, ⟨"S3"⟩]⟩]⟩, some ⟨"d", []⟩, 0, 0, 1, 0, [], ""⟩
      = .ok ⟨"t!!", "en", some ⟨[⟨"M1", [⟨"S1"⟩, ⟨"S2"⟩, ⟨"S3"⟩]⟩]⟩, some ⟨"d", []⟩, 0, 2, 1, 3,
          ["Failed to generate session 2: boom"],
          "[Module 1/1] Completed module " ++ apos ++ "M1" ++ apos⟩ := by
  constructor
  · intro gm gs st plan0 outline0 hplan houtline hgmp hgsp hgmo hgso
    unfold create_course_from_state
    dsimp only
    split
    · next heq => rw [hplan] at heq; cases heq
    · next plan hpeq =>
      rw [hplan] at hpeq
      injection hpeq with hpe
      subst hpe
      have hb : ∀ i ∈ List.range plan0.modules.length, i < plan0.modules.length := by
        intro i hi; simpa using hi
      obtain ⟨st2, hfold, hp2, ho2⟩ := moduleFoldM_ok hgmp hgsp hgmo hgso
        (List.range plan0.modules.length) { st with total_modules := plan0.modules.length }
        (by simpa using hplan) hb
      unfold processModules
      dsimp only
      rw [hfold]
      dsimp only
      rw [ho2.trans (show ({ st with total_modules := plan0.modules.length } : CGenState).course_outline = some outline0 from houtline)]
      dsimp only
      rw [hp2]
      exact ⟨_, rfl⟩
  · rfl

/-- C9: counterexample to the "only place" part — an exception raised by
the MODULE generator (not inside the per-session loop) is also tolerated:
the message `Failed to generate module 1: crash` is appended to `errors`,
the loop continues, and `create_course_from_state` still returns the
assembled course normally instead of the exception being fatal to the
run. -/
theorem c9_module_loop_also_tolerates :
    create_course_from_state (fun _ => .error "crash") (fun s => .ok s)
        ⟨"t", "en", some ⟨[⟨"M1", [⟨"S1"⟩, ⟨"S2"⟩, ⟨"S3"⟩]⟩]⟩, some ⟨"d", []⟩, 0, 0, 0, 0, [], ""⟩
      = .ok ⟨"t", "en", "d", [], [⟨"M1", [⟨"S1"⟩, ⟨"S2"⟩, ⟨"S3"⟩]⟩]⟩
    ∧ processModules (fun _ => .error "crash") (fun s => .ok s)
        ⟨"t", "en", some ⟨[⟨"M1", [⟨"S1"⟩, ⟨"S2"⟩, ⟨"S3"⟩]⟩]⟩, some ⟨"d", []⟩, 0, 0, 1, 0, [], ""⟩
      = .ok ⟨"t", "en", some ⟨[⟨"M1", [⟨"S1"⟩, ⟨"S2"⟩, ⟨"S3"⟩]⟩]⟩, some ⟨"d", []⟩, 0, 0, 1, 0,
          ["Failed to generate module 1: crash"],
          "[Module 1/1] Generating content for Module: M1"⟩ := ⟨rfl, rfl⟩

theorem c9_session_and_module_failure_tolerated_witness :
    ∃ c, create_course_from_state (fun s => .ok s) (fun s => .ok s)
        ⟨"t", "en", some ⟨[⟨"M1", [⟨"S1"⟩]⟩]⟩, some ⟨"d", []⟩, 0, 0, 0, 0, [], ""⟩ = .ok c :=
  c9_session_and_module_failure_tolerated.1 (fun s => .ok s) (fun s => .ok s) _ _ _ rfl rfl
    (fun _ _ h => by injection h with h2; rw [← h2])
    (fun _ _ h => by injection h with h2; rw [← h2])
    (fun _ _ h => by injection h with h2; rw [← h2])
    (fun _ _ h => by injection h with h2; rw [← h2])
